import Mathlib

/-!
Verification of the TalkJS backend proxy (src/index.js, src/talkjsService.js).

The service code is embedded shallowly: process environment variables become an
explicit `Config`, the JWT produced by jwt.sign becomes a `Token` record of its
claims, thrown JS errors become an explicit error type, and the upstream HTTP
API becomes an oracle function (for single calls) or a list of page outcomes
(for the pagination loop), so that every function below is executable.
-/

namespace TalkJS

/-- JSON values as exchanged with the upstream API and with HTTP clients. -/
inductive JsonV where
  | null : JsonV
  | bool (b : Bool) : JsonV
  | num (n : Int) : JsonV
  | str (s : String) : JsonV
  | arr (elems : List JsonV) : JsonV
  | obj (fields : List (String × JsonV)) : JsonV
  deriving Repr

/-- JS truthiness of a JSON value (used by `if (x)` style tests in the source). -/
def truthy : JsonV → Bool
  | .null => false
  | .bool b => b
  | .num n => n != 0
  | .str s => s != ""
  | .arr _ => true
  | .obj _ => true

/-- JS property access `v.k`: a field of an object if present, otherwise undefined
(`none`). Non-objects have no own properties here. -/
def objGet (v : JsonV) (k : String) : Option JsonV :=
  match v with
  | .obj fields => fields.lookup k
  | _ => none

/-- JS `typeof v` being the string "object" (true for objects, arrays and null). -/
def typeofObject : JsonV → Bool
  | .null => true
  | .arr _ => true
  | .obj _ => true
  | _ => false

/-- The four TALKJS_* process environment variables read at the top of
src/talkjsService.js (lines 4-9); `none` models an unset variable. -/
structure Config where
  APP_ID_DEV : Option String
  SECRET_KEY_DEV : Option String
  APP_ID_PRO : Option String
  SECRET_KEY_PRO : Option String
  deriving Repr, DecidableEq

/-- JS falsiness of a possibly-unset environment variable: unset (undefined) or
the empty string. This is the `!appId || !secretKey` test of talkjsService.js line 22. -/
def falsy : Option String → Bool
  | none => true
  | some s => s == ""

/-- JS template-literal stringification of a possibly-undefined value:
undefined prints as "undefined". -/
def jsStr : Option String → String
  | none => "undefined"
  | some s => s

/-- The signed credential produced by jwt.sign (talkjsService.js lines 28-31),
recorded as its claims: the fixed payload marker, the issuer option, the
expiresIn option (30 seconds) and the signing secret. -/
structure Token where
  tokenType : String
  issuer : String
  expiresInSeconds : Nat
  secret : String
  deriving Repr, DecidableEq

/-- Errors thrown inside the service: the configuration error thrown by
generateToken (line 25), an axios failure that carries an HTTP response
(status and body), and a transport failure without a response. -/
inductive SvcError where
  | config (keyType : String) : SvcError
  | upstream (status : Nat) (data : JsonV) (message : String) : SvcError
  | network (message : String) : SvcError
  deriving Repr

/-- `error.response?.status` of a thrown error. -/
def errStatus : SvcError → Option Nat
  | .upstream s _ _ => some s
  | _ => none

/-- `error.response?.data` of a thrown error. -/
def errData : SvcError → Option JsonV
  | .upstream _ d _ => some d
  | _ => none

/-- `error.message` of a thrown error. -/
def errMessage : SvcError → String
  | .config kt => "API keys not configured for " ++ kt ++ " environment."
  | .upstream _ _ m => m
  | .network m => m

/-- The application-id half of the credential selection written twice in the
source: talkjsService.js lines 14-19 (inside generateToken) and line 37
(appIdToUse inside callTalkJSApi) both compute this same conditional. -/
def selectedAppId (cfg : Config) (keyType : String) : Option String :=
  if keyType = "prod" then cfg.APP_ID_PRO else cfg.APP_ID_DEV

/-- The secret-key half of the credential selection of talkjsService.js lines 14-19. -/
def selectedSecret (cfg : Config) (keyType : String) : Option String :=
  if keyType = "prod" then cfg.SECRET_KEY_PRO else cfg.SECRET_KEY_DEV

/-- generateToken (talkjsService.js lines 12-32): select the credential pair for
keyType (anything other than "prod" selects dev), throw a configuration error if
either half is falsy, otherwise sign a token with payload marker "app", issuer
equal to the application id, and a 30 second expiry. -/
def generateToken (cfg : Config) (keyType : String) : Except SvcError Token :=
  let appId := selectedAppId cfg keyType
  let secretKey := selectedSecret cfg keyType
  if falsy appId || falsy secretKey then
    .error (.config keyType)
  else
    .ok { tokenType := "app", issuer := jsStr appId,
          expiresInSeconds := 30, secret := jsStr secretKey }

/-- An outbound HTTP request to the upstream API: method, full URL, the bearer
token placed in the Authorization header, and the JSON body (axios `data`). -/
structure ApiRequest where
  method : String
  url : String
  token : Token
  data : Option JsonV
  deriving Repr

/-- The upstream URL built by callTalkJSApi (talkjsService.js line 38). -/
def talkjsUrl (cfg : Config) (keyType : String) (endpoint : String) : String :=
  "https://api.talkjs.com/v1/" ++ jsStr (selectedAppId cfg keyType) ++ endpoint

/-- callTalkJSApi (talkjsService.js lines 35-57). The upstream is an oracle
`api` from the issued request to its outcome. The function returns the result
(the parsed response body, or the re-thrown error) together with the list of
requests actually issued: none when generateToken throws (the throw happens
before the axios call), exactly one otherwise. A `none` keyType models an
absent argument, replaced by the JS default parameter value "dev". -/
def callTalkJSApi (cfg : Config) (api : ApiRequest → Except SvcError JsonV)
    (endpoint : String) (method : String) (keyType : Option String)
    (data : Option JsonV) : Except SvcError JsonV × List ApiRequest :=
  let kt := keyType.getD "dev"
  match generateToken cfg kt with
  | .error e => (.error e, [])
  | .ok token =>
    let req : ApiRequest :=
      { method := method, url := talkjsUrl cfg kt endpoint,
        token := token, data := data }
    (api req, [req])

/-- A user record returned by the users listing; only the id field drives the
pagination cursor, all other fields ride along unobserved. -/
structure User where
  id : String
  deriving Repr, DecidableEq

/-- The outcome of one upstream page request in fetchUsersPage: either the
record array `response.data.data` of a 200 response, or a failed request
(axios throwing, which covers transport errors and non-2xx statuses). -/
inductive PageResult where
  | ok (users : List User) : PageResult
  | err (message : String) : PageResult
  deriving Repr, DecidableEq

/-- The fixed page size of fetchAllUsers (talkjsService.js line 96). -/
def pageLimit : Nat := 100

/-- The page URL built by fetchUsersPage (talkjsService.js lines 63-68); the
cursor is appended only when truthy (present and non-empty). -/
def usersPageUrl (cfg : Config) (keyType : String) (limit : Nat)
    (startingAfter : Option String) : String :=
  let base := "https://api.talkjs.com/v1/" ++ jsStr (selectedAppId cfg keyType)
      ++ "/users?limit=" ++ toString limit
  match startingAfter with
  | some c => if c = "" then base else base ++ "&startingAfter=" ++ c
  | none => base

/-- fetchUsersPage (talkjsService.js lines 62-92): mint a fresh token (a
configuration error is thrown before any request is made), then perform the
page request whose outcome the trace entry `resp` prescribes. -/
def fetchUsersPage (cfg : Config) (keyType : String) (resp : PageResult) :
    Except SvcError (List User) :=
  match generateToken cfg keyType with
  | .error e => .error e
  | .ok _ =>
    match resp with
    | .ok users => .ok users
    | .err m => .error (.network m)

/-- The while loop of fetchAllUsers (talkjsService.js lines 102-127). `pages`
lists the upstream outcomes of successive page requests in the order the
upstream would deliver them; the result is the accumulated user list together
with the URLs of the page requests actually issued. Every iteration mints a
fresh token; if minting throws, no request is issued, the catch block stops
the loop and the accumulator so far is returned. An empty page, a page shorter
than the limit, or a failed request likewise stops the loop. -/
def fetchAllUsersGo (cfg : Config) (keyType : String) :
    List PageResult → Option String → List User → List User × List String
  | [], _, allUsers => (allUsers, [])
  | resp :: rest, startingAfter, allUsers =>
    match generateToken cfg keyType with
    | .error _ => (allUsers, [])
    | .ok _ =>
      let reqUrl := usersPageUrl cfg keyType pageLimit startingAfter
      match resp with
      | .err _ => (allUsers, [reqUrl])
      | .ok currentPageUsers =>
        match currentPageUsers.getLast? with
        | none => (allUsers, [reqUrl])
        | some lastUser =>
          if currentPageUsers.length < pageLimit then
            (allUsers ++ currentPageUsers, [reqUrl])
          else
            let r := fetchAllUsersGo cfg keyType rest (some lastUser.id)
                (allUsers ++ currentPageUsers)
            (r.1, reqUrl :: r.2)

/-- fetchAllUsers (talkjsService.js lines 94-131): run the pagination loop with
an absent cursor and an empty accumulator. -/
def fetchAllUsers (cfg : Config) (keyType : String) (pages : List PageResult) :
    List User × List String :=
  fetchAllUsersGo cfg keyType pages none []

/-- A page outcome after which the loop cannot continue: a failed request or a
page shorter than the limit (including the empty page). -/
def terminalPage : PageResult → Bool
  | .err _ => true
  | .ok users => users.length < pageLimit

/-- Modelled from the spec: src/models/message.js is not under src. A Message
wraps the upstream message JSON with no field renaming beyond wrapping. -/
structure Message where
  raw : JsonV
  deriving Repr

/-- Modelled from the spec: src/models/conversation.js is not under src. A
Conversation passes the upstream payload fields through unchanged and carries
the optional embedded last message. -/
structure Conversation where
  payload : JsonV
  lastMessage : Option Message
  deriving Repr

/-- The response bodies the route handlers produce. -/
inductive Body where
  | json (v : JsonV) : Body
  | convData (c : Conversation) : Body
  | convList (cs : List Conversation) : Body
  | conversations (v : JsonV) : Body
  | users (us : List User) : Body
  | errorOnly (error : String) : Body
  | errorDetails (error : String) (details : Option JsonV) : Body
  deriving Repr

/-- An HTTP response sent back to the inbound caller: status code and body. -/
structure HttpResponse where
  status : Nat
  body : Body
  deriving Repr

/-- The wrapping of one upstream conversation object into the local model,
shared by two routes (index.js lines 28-31 and 96-100): wrap a truthy
lastMessage field as a Message, then construct the Conversation. -/
def mkConversation (conv : JsonV) : Conversation :=
  let lastMessage := match objGet conv "lastMessage" with
    | some lm => if truthy lm then some (Message.mk lm) else none
    | none => none
  { payload := conv, lastMessage := lastMessage }

/-- GET /conversations handler (index.js lines 22-37). `keyTypeQuery` is the
inbound keyType query parameter, which this handler does not read: it calls
callTalkJSApi with no keyType argument. On success it maps `data.data || []`
through the Conversation model (a truthy non-array data field, which would
fault in JS, is not modelled); on error it relays `error.response?.status`
or 500 with the message and details. -/
def getConversations (cfg : Config) (api : ApiRequest → Except SvcError JsonV)
    (keyTypeQuery : Option String) : HttpResponse × List ApiRequest :=
  let r := callTalkJSApi cfg api "/conversations" "GET" none none
  match r.1 with
  | .ok d =>
    let items : List JsonV := match objGet d "data" with
      | some (.arr xs) => xs
      | _ => []
    (⟨200, .convList (items.map mkConversation)⟩, r.2)
  | .error e =>
    (⟨(errStatus e).getD 500, .errorDetails (errMessage e) (errData e)⟩, r.2)

/-- The upstream body built by the PUT participants route (index.js line 52):
exactly the access and notify fields destructured from the inbound body; an
absent field is dropped in serialization, every other inbound field is dropped. -/
def participantBody (reqBody : JsonV) : JsonV :=
  .obj ((match objGet reqBody "access" with
          | some v => [("access", v)]
          | none => [])
     ++ (match objGet reqBody "notify" with
          | some v => [("notify", v)]
          | none => []))

/-- PUT /conversations/:conversationId/participants/:userId handler
(index.js lines 39-57): one upstream PUT with the rebuilt body, the upstream
response relayed with status 200, errors relayed as status-or-500 with details. -/
def putParticipant (cfg : Config) (api : ApiRequest → Except SvcError JsonV)
    (conversationId userId : String) (reqBody : JsonV) (keyType : Option String) :
    HttpResponse × List ApiRequest :=
  let r := callTalkJSApi cfg api
      ("/conversations/" ++ conversationId ++ "/participants/" ++ userId)
      "PUT" keyType (some (participantBody reqBody))
  match r.1 with
  | .ok d => (⟨200, .json d⟩, r.2)
  | .error e =>
    (⟨(errStatus e).getD 500, .errorDetails (errMessage e) (errData e)⟩, r.2)

/-- DELETE /conversations/:conversationId/participants/:userId handler
(index.js lines 59-76). -/
def deleteParticipant (cfg : Config) (api : ApiRequest → Except SvcError JsonV)
    (conversationId userId : String) (keyType : Option String) :
    HttpResponse × List ApiRequest :=
  let r := callTalkJSApi cfg api
      ("/conversations/" ++ conversationId ++ "/participants/" ++ userId)
      "DELETE" keyType none
  match r.1 with
  | .ok d => (⟨200, .json d⟩, r.2)
  | .error e =>
    (⟨(errStatus e).getD 500, .errorDetails (errMessage e) (errData e)⟩, r.2)

/-- GET /conversations/:conversationId handler (index.js lines 78-112): a
truthy object response is wrapped as a Conversation and sent as data; anything
else yields a local 404; a caught error with upstream status 404 yields the
localized not-found message, every other caught error yields status 500 with
message and details. -/
def getConversationById (cfg : Config) (api : ApiRequest → Except SvcError JsonV)
    (conversationId : String) (keyType : Option String) :
    HttpResponse × List ApiRequest :=
  let r := callTalkJSApi cfg api ("/conversations/" ++ conversationId)
      "GET" keyType none
  match r.1 with
  | .ok conversationData =>
    if truthy conversationData && typeofObject conversationData then
      (⟨200, .convData (mkConversation conversationData)⟩, r.2)
    else
      (⟨404, .errorOnly "Conversación no encontrada o datos inválidos."⟩, r.2)
  | .error e =>
    if errStatus e = some 404 then
      (⟨404, .errorOnly ("Conversación con ID " ++ conversationId
          ++ " no encontrada.")⟩, r.2)
    else
      (⟨500, .errorDetails (errMessage e) (errData e)⟩, r.2)

/-- GET /users/:userId/conversations handler (index.js lines 114-143):
responds with `data.data || []` raw; a caught error with upstream status 404
yields a localized message, others relay status-or-500 with details. -/
def getUserConversations (cfg : Config) (api : ApiRequest → Except SvcError JsonV)
    (userId : String) (keyType : Option String) : HttpResponse × List ApiRequest :=
  let r := callTalkJSApi cfg api ("/users/" ++ userId ++ "/conversations")
      "GET" keyType none
  match r.1 with
  | .ok d =>
    let conversationsData := match objGet d "data" with
      | some v => if truthy v then v else .arr []
      | none => .arr []
    (⟨200, .conversations conversationsData⟩, r.2)
  | .error e =>
    if errStatus e = some 404 then
      (⟨404, .errorOnly ("Conversations for user with ID " ++ userId
          ++ " not found.")⟩, r.2)
    else
      (⟨(errStatus e).getD 500, .errorDetails (errMessage e) (errData e)⟩, r.2)

/-- GET /v1/:appId/users/:userId handler (index.js lines 145-172): the appId
path segment is passed to the service as the environment selector; on a caught
error a truthy upstream status is relayed with details, otherwise 500 with the
message only. -/
def getUserByAppId (cfg : Config) (api : ApiRequest → Except SvcError JsonV)
    (appId userId : String) : HttpResponse × List ApiRequest :=
  let r := callTalkJSApi cfg api ("/users/" ++ userId) "GET" (some appId) none
  match r.1 with
  | .ok d => (⟨200, .json d⟩, r.2)
  | .error e =>
    match errStatus e with
    | some s =>
      if s = 0 then (⟨500, .errorOnly (errMessage e)⟩, r.2)
      else (⟨s, .errorDetails (errMessage e) (errData e)⟩, r.2)
    | none => (⟨500, .errorOnly (errMessage e)⟩, r.2)

/-- GET /users handler (index.js lines 174-195): the selector is
`req.query.keyType || 'dev'` (absent or empty both become dev); the response is
always 200 with whatever fetchAllUsers accumulated — fetchAllUsers catches
every page error internally and never throws, so the handler's own catch
branch is unreachable. -/
def getUsersRoute (cfg : Config) (keyTypeQuery : Option String)
    (pages : List PageResult) : HttpResponse × List String :=
  let keyType := match keyTypeQuery with
    | some s => if s = "" then "dev" else s
    | none => "dev"
  let r := fetchAllUsers cfg keyType pages
  (⟨200, .users r.1⟩, r.2)

/-- A sample configuration with all four variables set, used to instantiate
hypothesis-free corollaries of the theorems below. -/
def cfgEx : Config :=
  { APP_ID_DEV := some "app-dev", SECRET_KEY_DEV := some "sk-dev",
    APP_ID_PRO := some "app-pro", SECRET_KEY_PRO := some "sk-pro" }

/-- A sample upstream oracle that answers every request with an empty data array. -/
def apiOkEmpty : ApiRequest → Except SvcError JsonV :=
  fun _ => .ok (.obj [("data", .arr [])])

/-- A sample configuration whose prod credential pair is unset. -/
def cfgNoProd : Config :=
  { APP_ID_DEV := some "app-dev", SECRET_KEY_DEV := some "sk-dev",
    APP_ID_PRO := none, SECRET_KEY_PRO := none }

/-- Sample user records with distinct ids, for instantiating page shapes. -/
def uvs (n : Nat) : List User :=
  (List.range n).map (fun i => User.mk (toString i))

/-- A sample configuration whose dev credential pair is unset. -/
def cfgNoDev : Config :=
  { APP_ID_DEV := none, SECRET_KEY_DEV := none,
    APP_ID_PRO := some "app-pro", SECRET_KEY_PRO := some "sk-pro" }

/-- A sample upstream oracle that fails every request with an HTTP 404. -/
def apiErr404 : ApiRequest → Except SvcError JsonV :=
  fun _ => .error (.upstream 404 .null "Request failed with status code 404")

/-- The single upstream request the PUT participants route issues when the
inbound body carries both fields: a derived form used to state the theorem
about putParticipant. -/
def participantPutReq (cfg : Config) (kt : Option String) (tok : Token)
    (conversationId userId : String) (av nv : JsonV) : ApiRequest :=
  { method := "PUT",
    url := talkjsUrl cfg (kt.getD "dev")
      ("/conversations/" ++ conversationId ++ "/participants/" ++ userId),
    token := tok,
    data := some (.obj [("access", av), ("notify", nv)]) }

theorem fetchAllUsersGo_noToken (cfg : Config) (kt : String) (e : SvcError)
    (hts : generateToken cfg kt = .error e) (resp : PageResult)
    (rest : List PageResult) (cur : Option String) (acc : List User) :
    fetchAllUsersGo cfg kt (resp :: rest) cur acc = (acc, []) := by
  simp only [fetchAllUsersGo]
  rw [hts]

theorem fetchAllUsersGo_err (cfg : Config) (kt : String) (tok : Token)
    (hts : generateToken cfg kt = .ok tok) (m : String)
    (rest : List PageResult) (cur : Option String) (acc : List User) :
    fetchAllUsersGo cfg kt (.err m :: rest) cur acc
      = (acc, [usersPageUrl cfg kt pageLimit cur]) := by
  simp only [fetchAllUsersGo]
  rw [hts]

theorem fetchAllUsersGo_emptyPage (cfg : Config) (kt : String) (tok : Token)
    (hts : generateToken cfg kt = .ok tok) (users : List User)
    (hl : users.getLast? = none)
    (rest : List PageResult) (cur : Option String) (acc : List User) :
    fetchAllUsersGo cfg kt (.ok users :: rest) cur acc
      = (acc, [usersPageUrl cfg kt pageLimit cur]) := by
  simp only [fetchAllUsersGo]
  rw [hts]
  dsimp only
  rw [hl]

theorem fetchAllUsersGo_shortPage (cfg : Config) (kt : String) (tok : Token)
    (hts : generateToken cfg kt = .ok tok) (users : List User) (u : User)
    (hl : users.getLast? = some u) (hlen : users.length < pageLimit)
    (rest : List PageResult) (cur : Option String) (acc : List User) :
    fetchAllUsersGo cfg kt (.ok users :: rest) cur acc
      = (acc ++ users, [usersPageUrl cfg kt pageLimit cur]) := by
  simp only [fetchAllUsersGo]
  rw [hts]
  dsimp only
  rw [hl]
  dsimp only
  rw [if_pos hlen]

theorem fetchAllUsersGo_fullPage (cfg : Config) (kt : String) (tok : Token)
    (hts : generateToken cfg kt = .ok tok) (users : List User) (u : User)
    (hl : users.getLast? = some u) (hlen : ¬ users.length < pageLimit)
    (rest : List PageResult) (cur : Option String) (acc : List User) :
    fetchAllUsersGo cfg kt (.ok users :: rest) cur acc
      = ((fetchAllUsersGo cfg kt rest (some u.id) (acc ++ users)).1,
         usersPageUrl cfg kt pageLimit cur
           :: (fetchAllUsersGo cfg kt rest (some u.id) (acc ++ users)).2) := by
  simp only [fetchAllUsersGo]
  rw [hts]
  dsimp only
  rw [hl]
  dsimp only
  rw [if_neg hlen]

theorem fetchAllUsersGo_head (cfg : Config) (kt : String) (tok : Token)
    (hts : generateToken cfg kt = .ok tok) (resp : PageResult)
    (rest : List PageResult) (cur : Option String) (acc : List User) :
    (fetchAllUsersGo cfg kt (resp :: rest) cur acc).2.head?
      = some (usersPageUrl cfg kt pageLimit cur) := by
  cases resp with
  | err m => rw [fetchAllUsersGo_err cfg kt tok hts]; rfl
  | ok users =>
    cases hl : users.getLast? with
    | none => rw [fetchAllUsersGo_emptyPage cfg kt tok hts users hl]; rfl
    | some u =>
      by_cases hc : users.length < pageLimit
      · rw [fetchAllUsersGo_shortPage cfg kt tok hts users u hl hc]; rfl
      · rw [fetchAllUsersGo_fullPage cfg kt tok hts users u hl hc]; rfl

theorem fetchAllUsersGo_trace_le (cfg : Config) (kt : String)
    (pages : List PageResult) (cur : Option String) (acc : List User) :
    (fetchAllUsersGo cfg kt pages cur acc).2.length ≤ pages.length := by
  induction pages generalizing cur acc with
  | nil => simp [fetchAllUsersGo]
  | cons p ps ih =>
    cases hg : generateToken cfg kt with
    | error e => rw [fetchAllUsersGo_noToken cfg kt e hg]; simp
    | ok tok =>
      cases p with
      | err m => rw [fetchAllUsersGo_err cfg kt tok hg]; simp
      | ok users =>
        cases hl : users.getLast? with
        | none => rw [fetchAllUsersGo_emptyPage cfg kt tok hg users hl]; simp
        | some u =>
          by_cases hc : users.length < pageLimit
          · rw [fetchAllUsersGo_shortPage cfg kt tok hg users u hl hc]; simp
          · rw [fetchAllUsersGo_fullPage cfg kt tok hg users u hl hc]
            simpa using Nat.succ_le_succ (ih _ _)

/-- C1 (amended): for every keyType value outside dev and prod, including an
absent one, the credential selection, the upstream URL, and — whenever the dev
credentials are configured — the minted token and the whole of callTalkJSApi
coincide with keyType dev; when the dev credentials are missing both raise a
configuration error, but that error names the passed keyType rather than dev. -/
theorem nonProd_keyType_behaves_as_dev (cfg : Config)
    (api : ApiRequest → Except SvcError JsonV) (endpoint method : String)
    (data : Option JsonV) (kt : Option String) (h : kt ≠ some "prod") :
    selectedAppId cfg (kt.getD "dev") = selectedAppId cfg "dev"
    ∧ selectedSecret cfg (kt.getD "dev") = selectedSecret cfg "dev"
    ∧ talkjsUrl cfg (kt.getD "dev") endpoint = talkjsUrl cfg "dev" endpoint
    ∧ ((falsy (selectedAppId cfg "dev") || falsy (selectedSecret cfg "dev")) = false
        → generateToken cfg (kt.getD "dev") = generateToken cfg "dev"
          ∧ callTalkJSApi cfg api endpoint method kt data
              = callTalkJSApi cfg api endpoint method (some "dev") data)
    ∧ ((falsy (selectedAppId cfg "dev") || falsy (selectedSecret cfg "dev")) = true
        → generateToken cfg (kt.getD "dev") = .error (.config (kt.getD "dev"))
          ∧ callTalkJSApi cfg api endpoint method kt data
              = (.error (.config (kt.getD "dev")), [])) := by
  have hkt : kt.getD "dev" ≠ "prod" := by
    cases kt with
    | none => simp
    | some s => simpa using h
  have hdev : ("dev" : String) ≠ "prod" := by decide
  have happ : selectedAppId cfg (kt.getD "dev") = selectedAppId cfg "dev" := by
    simp [selectedAppId, hkt, hdev]
  have hsec : selectedSecret cfg (kt.getD "dev") = selectedSecret cfg "dev" := by
    simp [selectedSecret, hkt, hdev]
  have hurl : talkjsUrl cfg (kt.getD "dev") endpoint
      = talkjsUrl cfg "dev" endpoint := by
    simp [talkjsUrl, happ]
  refine ⟨happ, hsec, hurl, ?_, ?_⟩
  · intro hok
    have hgen : generateToken cfg (kt.getD "dev") = generateToken cfg "dev" := by
      simp only [generateToken, happ, hsec]
      rw [if_neg (by simp [hok]), if_neg (by simp [hok])]
    refine ⟨hgen, ?_⟩
    simp only [callTalkJSApi, Option.getD_some]
    rw [hgen]
    cases hgd : generateToken cfg "dev" with
    | error e => rfl
    | ok tok => rw [hurl]
  · intro hbad
    have hgen : generateToken cfg (kt.getD "dev")
        = .error (.config (kt.getD "dev")) := by
      simp only [generateToken, happ, hsec]
      rw [if_pos (by simp [hbad])]
    refine ⟨hgen, ?_⟩
    simp only [callTalkJSApi]
    rw [hgen]

/-- C1 witness: with configured dev credentials, a staging selector gives the
same callTalkJSApi behavior as dev at a concrete configuration. -/
theorem nonProd_keyType_behaves_as_dev_w :
    callTalkJSApi cfgEx apiOkEmpty "/conversations" "GET" (some "staging") none
      = callTalkJSApi cfgEx apiOkEmpty "/conversations" "GET" (some "dev") none :=
  ((nonProd_keyType_behaves_as_dev cfgEx apiOkEmpty "/conversations" "GET" none
    (some "staging") (by decide)).2.2.2.1 (by decide)).2

/-- C1 counterexample: with the dev credentials unset, the selector staging
raises the configuration error naming staging, which is a different error
(different message) from the one dev raises, so behavior is not identical. -/
theorem nonProd_keyType_error_differs_cx :
    generateToken cfgNoDev "staging" = .error (.config "staging")
    ∧ generateToken cfgNoDev "dev" = .error (.config "dev")
    ∧ errMessage (SvcError.config "staging") ≠ errMessage (SvcError.config "dev")
    ∧ generateToken cfgNoDev "staging" ≠ generateToken cfgNoDev "dev" := by
  refine ⟨rfl, rfl, by decide, ?_⟩
  intro hEq
  rw [show generateToken cfgNoDev "staging"
        = .error (.config "staging") from rfl,
      show generateToken cfgNoDev "dev"
        = .error (.config "dev") from rfl] at hEq
  injection hEq with h1
  injection h1 with h2
  exact absurd h2 (by decide)

/-- C2: generateToken fails, with the configuration error and no token,
exactly when the selected credential pair has an unset or empty half; when
both halves are set it returns the signed token. -/
theorem generateToken_config_error_iff (cfg : Config) (kt : String) :
    (generateToken cfg kt = .error (.config kt)
      ↔ (falsy (selectedAppId cfg kt) || falsy (selectedSecret cfg kt)) = true)
    ∧ ((falsy (selectedAppId cfg kt) || falsy (selectedSecret cfg kt)) = false
      → generateToken cfg kt
          = .ok { tokenType := "app", issuer := jsStr (selectedAppId cfg kt),
                  expiresInSeconds := 30,
                  secret := jsStr (selectedSecret cfg kt) }) := by
  by_cases hc : (falsy (selectedAppId cfg kt) || falsy (selectedSecret cfg kt)) = true
  · refine ⟨by simp [generateToken, hc], ?_⟩
    intro hfalse
    rw [hc] at hfalse
    cases hfalse
  · have hc2 : (falsy (selectedAppId cfg kt)
        || falsy (selectedSecret cfg kt)) = false := by
      simpa using hc
    refine ⟨by simp [generateToken, hc2], ?_⟩
    intro _
    simp [generateToken, hc2]

/-- C2 witness: at a fully configured environment, dev minting succeeds with
the expected token. -/
theorem generateToken_config_error_iff_w :
    generateToken cfgEx "dev"
      = .ok { tokenType := "app", issuer := "app-dev",
              expiresInSeconds := 30, secret := "sk-dev" } :=
  (generateToken_config_error_iff cfgEx "dev").2 (by decide)

/-- C3: every token generateToken returns has issuer equal to the selected
environment application identifier, the application-level payload marker, and
a validity window of exactly 30 seconds. -/
theorem generateToken_token_shape (cfg : Config) (kt : String) (tok : Token)
    (h : generateToken cfg kt = .ok tok) :
    selectedAppId cfg kt = some tok.issuer ∧ tok.tokenType = "app"
      ∧ tok.expiresInSeconds = 30 := by
  simp only [generateToken] at h
  by_cases hc : (falsy (selectedAppId cfg kt) || falsy (selectedSecret cfg kt)) = true
  · rw [if_pos hc] at h
    cases h
  · rw [if_neg hc] at h
    have happ : ¬ falsy (selectedAppId cfg kt) = true := by
      intro hf
      exact hc (by simp [hf])
    obtain ⟨s, hs⟩ : ∃ s, selectedAppId cfg kt = some s := by
      cases hsel : selectedAppId cfg kt with
      | none => exact absurd (by simp [falsy, hsel]) happ
      | some s => exact ⟨s, rfl⟩
    rw [Except.ok.injEq] at h
    subst h
    refine ⟨?_, rfl, rfl⟩
    rw [hs]
    simp [jsStr, hs]

/-- C3 witness: the prod token at a concrete configuration. -/
theorem generateToken_token_shape_w :
    selectedAppId cfgEx "prod"
        = some (Token.mk "app" "app-pro" 30 "sk-pro").issuer
      ∧ (Token.mk "app" "app-pro" 30 "sk-pro").tokenType = "app"
      ∧ (Token.mk "app" "app-pro" 30 "sk-pro").expiresInSeconds = 30 :=
  generateToken_token_shape cfgEx "prod" (Token.mk "app" "app-pro" 30 "sk-pro")
    (by rfl)

/-- C4: for an upstream delivering pages of sizes 100, 100 and 37, fetchAllUsers
returns the concatenation of the three pages — 237 records in upstream order —
and issues exactly three page requests, none after the 37-record page, whatever
further pages the upstream could have delivered; in general a page shorter than
the limit stops the loop after its own request, and a full page leads to exactly
one further request whose cursor is the id of the full page's last record. -/
theorem fetchAllUsers_three_pages (cfg : Config) (kt : String) (tok : Token)
    (hts : generateToken cfg kt = .ok tok) (p1 p2 p3 : List User) (u1 u2 : User)
    (h1 : p1.length = pageLimit) (h2 : p2.length = pageLimit)
    (h3 : p3.length = 37) (hl1 : p1.getLast? = some u1)
    (hl2 : p2.getLast? = some u2) (rest : List PageResult) :
    fetchAllUsers cfg kt ([.ok p1, .ok p2, .ok p3] ++ rest)
      = (p1 ++ p2 ++ p3,
         [usersPageUrl cfg kt pageLimit none,
          usersPageUrl cfg kt pageLimit (some u1.id),
          usersPageUrl cfg kt pageLimit (some u2.id)])
    ∧ (p1 ++ p2 ++ p3).length = 237
    ∧ (∀ (users : List User) (u : User) (r : PageResult)
         (rest2 : List PageResult) (cur : Option String) (acc : List User),
         users.getLast? = some u → users.length < pageLimit →
         (fetchAllUsersGo cfg kt (.ok users :: r :: rest2) cur acc).2
           = [usersPageUrl cfg kt pageLimit cur])
    ∧ (∀ (users : List User) (u : User) (r : PageResult)
         (rest2 : List PageResult) (cur : Option String) (acc : List User),
         users.getLast? = some u → users.length = pageLimit →
         (fetchAllUsersGo cfg kt (.ok users :: r :: rest2) cur acc).2.take 2
           = [usersPageUrl cfg kt pageLimit cur,
              usersPageUrl cfg kt pageLimit (some u.id)]) := by
  have hne1 : ¬ p1.length < pageLimit := by rw [h1]; exact lt_irrefl _
  have hne2 : ¬ p2.length < pageLimit := by rw [h2]; exact lt_irrefl _
  have hlt3 : p3.length < pageLimit := by rw [h3]; decide
  obtain ⟨u3, hl3⟩ : ∃ u3, p3.getLast? = some u3 := by
    cases hcase : p3.getLast? with
    | none =>
      rw [List.getLast?_eq_none_iff] at hcase
      rw [hcase] at h3
      simp at h3
    | some u3 => exact ⟨u3, rfl⟩
  refine ⟨?_, ?_, ?_, ?_⟩
  · unfold fetchAllUsers
    rw [show ([PageResult.ok p1, .ok p2, .ok p3] ++ rest)
          = .ok p1 :: .ok p2 :: .ok p3 :: rest from rfl,
        fetchAllUsersGo_fullPage cfg kt tok hts p1 u1 hl1 hne1,
        fetchAllUsersGo_fullPage cfg kt tok hts p2 u2 hl2 hne2,
        fetchAllUsersGo_shortPage cfg kt tok hts p3 u3 hl3 hlt3]
    simp [List.append_assoc]
  · simp [h1, h2, h3, pageLimit]
  · intro users u r rest2 cur acc hlu hlt
    rw [fetchAllUsersGo_shortPage cfg kt tok hts users u hlu hlt]
  · intro users u r rest2 cur acc hlu hlen
    have hne : ¬ users.length < pageLimit := by rw [hlen]; exact lt_irrefl _
    rw [fetchAllUsersGo_fullPage cfg kt tok hts users u hlu hne]
    have hh := fetchAllUsersGo_head cfg kt tok hts r rest2 (some u.id) (acc ++ users)
    cases hcase : (fetchAllUsersGo cfg kt (r :: rest2) (some u.id) (acc ++ users)).2 with
    | nil =>
      rw [hcase] at hh
      cases hh
    | cons a t2 =>
      rw [hcase] at hh
      simp only [List.head?_cons, Option.some.injEq] at hh
      subst hh
      rfl

/-- C4 witness: concrete pages of sizes 100, 100 and 37 at a concrete
configuration. -/
theorem fetchAllUsers_three_pages_w :
    fetchAllUsers cfgEx "dev"
        ([PageResult.ok (uvs 100), PageResult.ok (uvs 100),
          PageResult.ok (uvs 37)] ++ [])
      = (uvs 100 ++ uvs 100 ++ uvs 37,
         [usersPageUrl cfgEx "dev" pageLimit none,
          usersPageUrl cfgEx "dev" pageLimit (some (User.mk "99").id),
          usersPageUrl cfgEx "dev" pageLimit (some (User.mk "99").id)]) :=
  (fetchAllUsers_three_pages cfgEx "dev" (Token.mk "app" "app-dev" 30 "sk-dev")
    (by rfl) (uvs 100) (uvs 100) (uvs 37) (User.mk "99") (User.mk "99")
    (by decide) (by decide) (by decide) (by decide) (by decide) []).1

/-- C5: if a page request fails, fetchAllUsers returns the records accumulated
so far instead of propagating the error; in particular after a full first page
and a failing second request the result is exactly the first page. -/
theorem fetchAllUsers_partial_on_error (cfg : Config) (kt : String) (tok : Token)
    (hts : generateToken cfg kt = .ok tok) (p1 : List User) (u1 : User)
    (h1 : p1.length = pageLimit) (hl1 : p1.getLast? = some u1)
    (m : String) (rest : List PageResult) :
    fetchAllUsers cfg kt (.ok p1 :: .err m :: rest)
      = (p1, [usersPageUrl cfg kt pageLimit none,
              usersPageUrl cfg kt pageLimit (some u1.id)])
    ∧ ∀ (m2 : String) (rest2 : List PageResult) (cur : Option String)
        (acc : List User),
        fetchAllUsersGo cfg kt (.err m2 :: rest2) cur acc
          = (acc, [usersPageUrl cfg kt pageLimit cur]) := by
  have hne1 : ¬ p1.length < pageLimit := by rw [h1]; exact lt_irrefl _
  constructor
  · unfold fetchAllUsers
    rw [fetchAllUsersGo_fullPage cfg kt tok hts p1 u1 hl1 hne1,
        fetchAllUsersGo_err cfg kt tok hts]
    simp
  · intro m2 rest2 cur acc
    exact fetchAllUsersGo_err cfg kt tok hts m2 rest2 cur acc

/-- C5 witness: a full first page then a failing second request at a concrete
configuration. -/
theorem fetchAllUsers_partial_on_error_w :
    fetchAllUsers cfgEx "dev" [PageResult.ok (uvs 100), PageResult.err "boom"]
      = (uvs 100,
         [usersPageUrl cfgEx "dev" pageLimit none,
          usersPageUrl cfgEx "dev" pageLimit (some (User.mk "99").id)]) :=
  (fetchAllUsers_partial_on_error cfgEx "dev" (Token.mk "app" "app-dev" 30 "sk-dev")
    (by rfl) (uvs 100) (User.mk "99") (by decide) (by decide) "boom" []).1

/-- C6: when the upstream call of GET /conversations/:conversationId fails
with HTTP status 404, the route responds 404 with the localized message
interpolating the requested id; any other failure of the call is answered
with status 500 and the message/details body. -/
theorem getConversationById_error_mapping (cfg : Config)
    (api : ApiRequest → Except SvcError JsonV) (conversationId : String)
    (kt : Option String) (e : SvcError)
    (h : (callTalkJSApi cfg api ("/conversations/" ++ conversationId)
            "GET" kt none).1 = .error e) :
    (errStatus e = some 404 →
      (getConversationById cfg api conversationId kt).1
        = ⟨404, .errorOnly ("Conversación con ID " ++ conversationId
            ++ " no encontrada.")⟩)
    ∧ (errStatus e ≠ some 404 →
      (getConversationById cfg api conversationId kt).1
        = ⟨500, .errorDetails (errMessage e) (errData e)⟩) := by
  constructor
  · intro h404
    simp only [getConversationById]
    rw [h]
    dsimp only
    rw [if_pos h404]
  · intro hother
    simp only [getConversationById]
    rw [h]
    dsimp only
    rw [if_neg hother]

/-- C6 witness: an upstream 404 at a concrete configuration yields the
localized not-found response. -/
theorem getConversationById_error_mapping_w :
    (getConversationById cfgEx apiErr404 "c1" none).1
      = ⟨404, .errorOnly "Conversación con ID c1 no encontrada."⟩ :=
  (getConversationById_error_mapping cfgEx apiErr404 "c1" none
    (.upstream 404 .null "Request failed with status code 404")
    (by rfl)).1 (by rfl)

/-- C7: the PUT participants route issues exactly one upstream PUT, to the
participant path, with body exactly the access and notify fields (other
inbound fields dropped), and on upstream success relays the upstream body
with status 200. -/
theorem putParticipant_single_put (cfg : Config)
    (api : ApiRequest → Except SvcError JsonV) (conversationId userId : String)
    (reqBody : JsonV) (kt : Option String) (tok : Token)
    (hts : generateToken cfg (kt.getD "dev") = .ok tok)
    (av nv : JsonV) (ha : objGet reqBody "access" = some av)
    (hn : objGet reqBody "notify" = some nv) :
    (putParticipant cfg api conversationId userId reqBody kt).2
      = [participantPutReq cfg kt tok conversationId userId av nv]
    ∧ ∀ d : JsonV,
        api (participantPutReq cfg kt tok conversationId userId av nv) = .ok d →
        (putParticipant cfg api conversationId userId reqBody kt).1
          = ⟨200, .json d⟩ := by
  have hbody : participantBody reqBody = .obj [("access", av), ("notify", nv)] := by
    simp [participantBody, ha, hn]
  have hcall : callTalkJSApi cfg api
      ("/conversations/" ++ conversationId ++ "/participants/" ++ userId)
      "PUT" kt (some (participantBody reqBody))
      = (api (participantPutReq cfg kt tok conversationId userId av nv),
         [participantPutReq cfg kt tok conversationId userId av nv]) := by
    simp only [callTalkJSApi, participantPutReq]
    rw [hts, hbody]
  constructor
  · simp only [putParticipant]
    rw [hcall]
    cases hres : api (participantPutReq cfg kt tok conversationId userId av nv) with
    | ok d => rfl
    | error e => rfl
  · intro d hd
    simp only [putParticipant]
    rw [hcall]
    dsimp only
    rw [hd]

/-- C7 witness: a concrete PUT with an extra inbound body field, which is
dropped from the upstream body. -/
theorem putParticipant_single_put_w :
    (putParticipant cfgEx apiOkEmpty "c1" "u1"
        (JsonV.obj [("access", .str "ReadWrite"), ("notify", .bool true),
                    ("junk", .num 1)])
        (some "dev")).2
      = [participantPutReq cfgEx (some "dev") (Token.mk "app" "app-dev" 30 "sk-dev")
          "c1" "u1" (.str "ReadWrite") (.bool true)] :=
  (putParticipant_single_put cfgEx apiOkEmpty "c1" "u1"
    (JsonV.obj [("access", .str "ReadWrite"), ("notify", .bool true),
                ("junk", .num 1)])
    (some "dev") (Token.mk "app" "app-dev" 30 "sk-dev") (by rfl)
    (.str "ReadWrite") (.bool true) (by rfl) (by rfl)).1

theorem callTalkJSApi_trace (cfg : Config)
    (api : ApiRequest → Except SvcError JsonV) (endpoint method : String)
    (keyType : Option String) (data : Option JsonV) (tok : Token)
    (hts : generateToken cfg (keyType.getD "dev") = .ok tok) :
    (callTalkJSApi cfg api endpoint method keyType data).2
      = [{ method := method, url := talkjsUrl cfg (keyType.getD "dev") endpoint,
           token := tok, data := data }] := by
  simp only [callTalkJSApi]
  rw [hts]

theorem getConversations_trace (cfg : Config)
    (api : ApiRequest → Except SvcError JsonV) (q : Option String) :
    (getConversations cfg api q).2
      = (callTalkJSApi cfg api "/conversations" "GET" none none).2 := by
  simp only [getConversations]
  cases hres : (callTalkJSApi cfg api "/conversations" "GET" none none).1 with
  | ok d => rfl
  | error e => rfl

theorem putParticipant_trace (cfg : Config)
    (api : ApiRequest → Except SvcError JsonV) (cid uid : String)
    (reqBody : JsonV) (q : Option String) :
    (putParticipant cfg api cid uid reqBody q).2
      = (callTalkJSApi cfg api
          ("/conversations/" ++ cid ++ "/participants/" ++ uid)
          "PUT" q (some (participantBody reqBody))).2 := by
  simp only [putParticipant]
  cases hres : (callTalkJSApi cfg api
      ("/conversations/" ++ cid ++ "/participants/" ++ uid)
      "PUT" q (some (participantBody reqBody))).1 with
  | ok d => rfl
  | error e => rfl

theorem deleteParticipant_trace (cfg : Config)
    (api : ApiRequest → Except SvcError JsonV) (cid uid : String)
    (q : Option String) :
    (deleteParticipant cfg api cid uid q).2
      = (callTalkJSApi cfg api
          ("/conversations/" ++ cid ++ "/participants/" ++ uid)
          "DELETE" q none).2 := by
  simp only [deleteParticipant]
  cases hres : (callTalkJSApi cfg api
      ("/conversations/" ++ cid ++ "/participants/" ++ uid)
      "DELETE" q none).1 with
  | ok d => rfl
  | error e => rfl

theorem getConversationById_trace (cfg : Config)
    (api : ApiRequest → Except SvcError JsonV) (cid : String)
    (q : Option String) :
    (getConversationById cfg api cid q).2
      = (callTalkJSApi cfg api ("/conversations/" ++ cid) "GET" q none).2 := by
  simp only [getConversationById]
  cases hres : (callTalkJSApi cfg api ("/conversations/" ++ cid)
      "GET" q none).1 with
  | ok d =>
    dsimp only
    by_cases hobj : (truthy d && typeofObject d) = true
    · rw [if_pos hobj]
    · rw [if_neg hobj]
  | error e =>
    dsimp only
    by_cases h404 : errStatus e = some 404
    · rw [if_pos h404]
    · rw [if_neg h404]

theorem getUserConversations_trace (cfg : Config)
    (api : ApiRequest → Except SvcError JsonV) (uid : String)
    (q : Option String) :
    (getUserConversations cfg api uid q).2
      = (callTalkJSApi cfg api ("/users/" ++ uid ++ "/conversations")
          "GET" q none).2 := by
  simp only [getUserConversations]
  cases hres : (callTalkJSApi cfg api ("/users/" ++ uid ++ "/conversations")
      "GET" q none).1 with
  | ok d => rfl
  | error e =>
    dsimp only
    by_cases h404 : errStatus e = some 404
    · rw [if_pos h404]
    · rw [if_neg h404]

theorem getUserByAppId_trace (cfg : Config)
    (api : ApiRequest → Except SvcError JsonV) (appId uid : String) :
    (getUserByAppId cfg api appId uid).2
      = (callTalkJSApi cfg api ("/users/" ++ uid) "GET" (some appId) none).2 := by
  simp only [getUserByAppId]
  cases hres : (callTalkJSApi cfg api ("/users/" ++ uid)
      "GET" (some appId) none).1 with
  | ok d => rfl
  | error e =>
    dsimp only
    cases hst : errStatus e with
    | none => rfl
    | some s =>
      dsimp only
      by_cases hz : s = 0
      · rw [if_pos hz]
      · rw [if_neg hz]

/-- C8 (amended): every route except GET /conversations and
GET /v1/:appId/users/:userId takes the environment selector from the keyType
query parameter, defaulting to dev when absent; GET /v1/:appId/users/:userId
takes it from its appId path segment; GET /conversations ignores the query
entirely and always uses the dev environment, so GET /conversations with
keyType=prod still issues its upstream call against the dev credentials. -/
theorem routes_env_selector (cfg : Config)
    (api : ApiRequest → Except SvcError JsonV) (cid uid : String)
    (reqBody : JsonV) (q : Option String) (appId : String)
    (pages : List PageResult) (tokDev tokQ tokA : Token)
    (htd : generateToken cfg "dev" = .ok tokDev)
    (htq : generateToken cfg (q.getD "dev") = .ok tokQ)
    (hta : generateToken cfg appId = .ok tokA)
    (hq : q ≠ some "") :
    (∀ q2 : Option String, getConversations cfg api q2 = getConversations cfg api none)
    ∧ (getConversations cfg api q).2.map ApiRequest.url
        = [talkjsUrl cfg "dev" "/conversations"]
    ∧ (putParticipant cfg api cid uid reqBody q).2.map ApiRequest.url
        = [talkjsUrl cfg (q.getD "dev")
            ("/conversations/" ++ cid ++ "/participants/" ++ uid)]
    ∧ (deleteParticipant cfg api cid uid q).2.map ApiRequest.url
        = [talkjsUrl cfg (q.getD "dev")
            ("/conversations/" ++ cid ++ "/participants/" ++ uid)]
    ∧ (getConversationById cfg api cid q).2.map ApiRequest.url
        = [talkjsUrl cfg (q.getD "dev") ("/conversations/" ++ cid)]
    ∧ (getUserConversations cfg api uid q).2.map ApiRequest.url
        = [talkjsUrl cfg (q.getD "dev") ("/users/" ++ uid ++ "/conversations")]
    ∧ (getUserByAppId cfg api appId uid).2.map ApiRequest.url
        = [talkjsUrl cfg appId ("/users/" ++ uid)]
    ∧ (getUsersRoute cfg q pages).2
        = (fetchAllUsers cfg (q.getD "dev") pages).2 := by
  refine ⟨fun q2 => rfl, ?_, ?_, ?_, ?_, ?_, ?_, ?_⟩
  · rw [getConversations_trace,
        callTalkJSApi_trace cfg api "/conversations" "GET" none none tokDev htd]
    rfl
  · rw [putParticipant_trace,
        callTalkJSApi_trace cfg api
          ("/conversations/" ++ cid ++ "/participants/" ++ uid)
          "PUT" q (some (participantBody reqBody)) tokQ htq]
    rfl
  · rw [deleteParticipant_trace,
        callTalkJSApi_trace cfg api
          ("/conversations/" ++ cid ++ "/participants/" ++ uid)
          "DELETE" q none tokQ htq]
    rfl
  · rw [getConversationById_trace,
        callTalkJSApi_trace cfg api ("/conversations/" ++ cid)
          "GET" q none tokQ htq]
    rfl
  · rw [getUserConversations_trace,
        callTalkJSApi_trace cfg api ("/users/" ++ uid ++ "/conversations")
          "GET" q none tokQ htq]
    rfl
  · rw [getUserByAppId_trace,
        callTalkJSApi_trace cfg api ("/users/" ++ uid)
          "GET" (some appId) none tokA hta]
    rfl
  · cases q with
    | none => rfl
    | some s =>
      have hs : s ≠ "" := fun hsEq => hq (by rw [hsEq])
      simp only [getUsersRoute]
      rw [if_neg hs]
      rfl

/-- C8 witness: with keyType=prod the PUT participants route hits the prod
URL at a concrete configuration. -/
theorem routes_env_selector_w :
    (putParticipant cfgEx apiOkEmpty "c1" "u1"
        (JsonV.obj [("access", .str "ReadWrite"), ("notify", .bool true)])
        (some "prod")).2.map ApiRequest.url
      = [talkjsUrl cfgEx "prod" "/conversations/c1/participants/u1"] :=
  (routes_env_selector cfgEx apiOkEmpty "c1" "u1"
    (JsonV.obj [("access", .str "ReadWrite"), ("notify", .bool true)])
    (some "prod") "prod" []
    (Token.mk "app" "app-dev" 30 "sk-dev")
    (Token.mk "app" "app-pro" 30 "sk-pro")
    (Token.mk "app" "app-pro" 30 "sk-pro")
    (by rfl) (by rfl) (by rfl) (by decide)).2.2.1

/-- C8 counterexample: GET /conversations with keyType=prod issues its single
upstream request against the dev URL, not the prod URL, refuting the claim
that it uses the prod credentials. -/
theorem getConversations_keyType_prod_cx :
    (getConversations cfgEx apiOkEmpty (some "prod")).2.map ApiRequest.url
        = [talkjsUrl cfgEx "dev" "/conversations"]
    ∧ talkjsUrl cfgEx "dev" "/conversations"
        ≠ talkjsUrl cfgEx "prod" "/conversations"
    ∧ ¬ (getConversations cfgEx apiOkEmpty (some "prod")).2.map ApiRequest.url
        = [talkjsUrl cfgEx "prod" "/conversations"] := by
  have h1 : (getConversations cfgEx apiOkEmpty (some "prod")).2.map ApiRequest.url
      = [talkjsUrl cfgEx "dev" "/conversations"] := by rfl
  have h2 : talkjsUrl cfgEx "dev" "/conversations"
      ≠ talkjsUrl cfgEx "prod" "/conversations" := by decide
  refine ⟨h1, h2, ?_⟩
  intro h3
  rw [h1] at h3
  injection h3 with ha hb
  exact h2 ha

/-- C9 (code bug): with the prod credentials unset, GET /users?keyType=prod
responds 200 with an empty user list and issues no upstream request — the
configuration error is swallowed by fetchAllUsers — whereas a
callTalkJSApi-backed route such as GET /conversations/:id surfaces the same
configuration error to the caller as a 500. -/
theorem getUsersRoute_swallows_config_error :
    getUsersRoute cfgNoProd (some "prod") [PageResult.ok (uvs 1)]
      = (⟨200, Body.users []⟩, [])
    ∧ (getConversationById cfgNoProd apiOkEmpty "c1" (some "prod")).1
      = ⟨500, Body.errorDetails
          "API keys not configured for prod environment." none⟩ := by
  exact ⟨rfl, rfl⟩

/-- C10: the pagination loop is total on any page trace with a terminal page
(a failed request, or a page shorter than the limit, the empty page included):
its result is already determined by the prefix ending at the first terminal
page — pages supplied after it are never requested — and it issues at most one
page request per supplied page. -/
theorem fetchAllUsersGo_stops_at_first_terminal (cfg : Config) (kt : String)
    (pages rest : List PageResult) (cur : Option String) (acc : List User)
    (h : ∃ p ∈ pages, terminalPage p = true) :
    fetchAllUsersGo cfg kt (pages ++ rest) cur acc
      = fetchAllUsersGo cfg kt pages cur acc
    ∧ (fetchAllUsersGo cfg kt pages cur acc).2.length ≤ pages.length := by
  refine ⟨?_, fetchAllUsersGo_trace_le cfg kt pages cur acc⟩
  induction pages generalizing cur acc with
  | nil => simp at h
  | cons p ps ih =>
    rw [List.cons_append]
    cases hg : generateToken cfg kt with
    | error e =>
      rw [fetchAllUsersGo_noToken cfg kt e hg, fetchAllUsersGo_noToken cfg kt e hg]
    | ok tok =>
      cases p with
      | err m =>
        rw [fetchAllUsersGo_err cfg kt tok hg, fetchAllUsersGo_err cfg kt tok hg]
      | ok users =>
        cases hl : users.getLast? with
        | none =>
          rw [fetchAllUsersGo_emptyPage cfg kt tok hg users hl,
              fetchAllUsersGo_emptyPage cfg kt tok hg users hl]
        | some u =>
          by_cases hc : users.length < pageLimit
          · rw [fetchAllUsersGo_shortPage cfg kt tok hg users u hl hc,
                fetchAllUsersGo_shortPage cfg kt tok hg users u hl hc]
          · rw [fetchAllUsersGo_fullPage cfg kt tok hg users u hl hc,
                fetchAllUsersGo_fullPage cfg kt tok hg users u hl hc]
            have hps : ∃ q2 ∈ ps, terminalPage q2 = true := by
              rcases h with ⟨q2, hq2, hterm⟩
              rcases List.mem_cons.mp hq2 with hq2a | hq2b
              · exfalso
                subst hq2a
                exact hc (by simpa [terminalPage] using hterm)
              · exact ⟨q2, hq2b, hterm⟩
            rw [ih _ _ hps]

/-- C10 witness: a short first page ends the loop; a page supplied after it is
never requested. -/
theorem fetchAllUsersGo_stops_at_first_terminal_w :
    fetchAllUsersGo cfgEx "dev"
        ([PageResult.ok (uvs 5)] ++ [PageResult.ok (uvs 100)]) none []
      = fetchAllUsersGo cfgEx "dev" [PageResult.ok (uvs 5)] none []
    ∧ (fetchAllUsersGo cfgEx "dev" [PageResult.ok (uvs 5)] none []).2.length
        ≤ [PageResult.ok (uvs 5)].length :=
  fetchAllUsersGo_stops_at_first_terminal cfgEx "dev" [PageResult.ok (uvs 5)]
    [PageResult.ok (uvs 100)] none [] (by decide)

end TalkJS
